import Mathlib

/-!
Shallow embedding of the Cloud-browser HTTP handlers.

The repository has three variants of the same small API:
- `src/server.js`: an Express server using Puppeteer, with a process-local
  session map `activeBrowserSessions` (endpoints `/api/create-session`,
  `/api/navigate`, `/api/screenshot/:sessionId`, `/api/close-session`);
- `src/unnamed/part_000`: an Express server that only simulates
  `/api/create-session` (no browser, no session map);
- `src/unnamed/part_001`: three Vercel serverless handlers using Playwright
  (`api/create-session.js`, `api/navigate.js`, `api/close-session.js`),
  each with its own (per-invocation, hence effectively empty) session map.

Browser-automation calls (launch, newPage, setViewport/setViewportSize,
goto, screenshot, close) are modelled by an environment of fallible
operations.  Each handler is a pure function of the environment, the
request, and the session map; it returns the HTTP response, the updated
session map, and the ordered trace of browser operations it invoked.
-/

/-- A thrown JavaScript error, as the handlers observe it: its `name`
(e.g. "TimeoutError", "AbortError") and its `message`. -/
structure JsError where
  name : String
  message : String
  deriving DecidableEq, Repr

/-- A browser handle returned by `puppeteer.launch` / `chromium.launch`. -/
structure Browser where
  id : Nat
  deriving DecidableEq, Repr

/-- A page handle returned by `browser.newPage()`. -/
structure Page where
  id : Nat
  deriving DecidableEq, Repr

/-- The options object passed to `launch`.  The fields are the ones the
repository actually passes: an optional `executablePath` (only the
serverless create-session passes one), `headless`, and `args`.  Note there
is no `signal` field: none of the variants passes an abort signal to
`launch`. -/
structure LaunchOptions where
  executablePath : Option String
  headless : Bool
  args : List String
  deriving DecidableEq, Repr

/-- The options object passed to `page.goto`. -/
structure GotoOptions where
  waitUntil : String
  timeout : Nat
  deriving DecidableEq, Repr

/-- The JSON bodies the handlers construct, one constructor per literal
shape appearing in the source:
`{error}`, `{error, details}`, `{success: true, message}`,
`{success: true, image, mimeType}`, the create-session envelope
`{data: {id, live_view_url, browser_info: {viewport: {width, height}, headless}}}`,
and the empty body of `res.status(200).end()`. -/
inductive Body
  | empty
  | errorMsg (error : String)
  | errorDetails (error : String) (details : String)
  | successMsg (message : String)
  | shot (image : String) (mimeType : String)
  | envelope (id : String) (liveViewUrl : String)
      (viewportWidth : Nat) (viewportHeight : Nat) (headless : Bool)
  deriving DecidableEq, Repr

/-- An HTTP response: status, headers, JSON body. -/
structure Response where
  status : Nat
  headers : List (String × String)
  body : Body
  deriving DecidableEq, Repr

/-- One entry of `activeBrowserSessions`: `{browser, page}`. -/
structure SessionRec where
  browser : Browser
  page : Page
  deriving DecidableEq, Repr

/-- The `activeBrowserSessions` JS `Map`, as an association list
(JS `Map` keys are unique and iteration order is insertion order). -/
abbrev SessionMap := List (String × SessionRec)

/-- JS `Map.get`. -/
def mapGet : SessionMap → String → Option SessionRec
  | [], _ => none
  | (k, v) :: rest, key => if k = key then some v else mapGet rest key

/-- JS `Map.set`: replace the value in place if the key is present,
otherwise append a new entry. -/
def mapSet : SessionMap → String → SessionRec → SessionMap
  | [], key, val => [(key, val)]
  | (k, v) :: rest, key, val =>
      if k = key then (key, val) :: rest else (k, v) :: mapSet rest key val

/-- JS `Map.delete`: remove the (unique) entry with the given key. -/
def mapDelete : SessionMap → String → SessionMap
  | [], _ => []
  | (k, v) :: rest, key => if k = key then rest else (k, v) :: mapDelete rest key

/-- Truthiness of a request-body string field: `undefined` and `""` are
falsy (JS `!sessionId`), anything else is truthy. -/
def present : Option String → Bool
  | none => false
  | some s => s != ""

/-- JS `a || b` on an error-message string: the fallback is used when the
message is the empty string (falsy). -/
def msgOr (m fallback : String) : String :=
  if m = "" then fallback else m

/-- Character-list prefix test, used to embed `String.includes`. -/
def hasPre : List Char → List Char → Bool
  | [], _ => true
  | _ :: _, [] => false
  | a :: as, b :: bs => a = b && hasPre as bs

/-- Character-list substring test, used to embed `String.includes`. -/
def hasSub (pat : List Char) : List Char → Bool
  | [] => hasPre pat []
  | b :: bs => hasPre pat (b :: bs) || hasSub pat bs

/-- JS `s.includes(pat)`. -/
def strContains (s pat : String) : Bool :=
  hasSub pat.toList s.toList

/-- A browser operation invoked by a handler, recorded with its arguments. -/
inductive BrowserOp
  | launch (opts : LaunchOptions)
  | newPage (b : Browser)
  | setViewport (p : Page) (width : Nat) (height : Nat)
  | goto (p : Page) (url : String) (opts : GotoOptions)
  | screenshot (p : Page)
  | close (b : Browser)
  deriving DecidableEq, Repr

/-- The browser-automation client (Puppeteer in `server.js`, Playwright in
the serverless handlers).  Every operation may throw.  `executablePath` and
`chromiumArgs` model the values supplied by `@sparticuz/chromium` in the
serverless create-session handler. -/
structure BrowserEnv where
  launch : LaunchOptions → Except JsError Browser
  newPage : Browser → Except JsError Page
  setViewport : Page → Nat → Nat → Except JsError Unit
  goto : Page → String → GotoOptions → Except JsError Unit
  screenshot : Page → Except JsError String
  closeBrowser : Browser → Except JsError Unit
  executablePath : String
  chromiumArgs : List String

/-- The outcome of one handler invocation: the response, the session map
after the invocation, and the trace of browser operations invoked. -/
structure HOut where
  resp : Response
  sessions : SessionMap
  ops : List BrowserOp
  deriving Repr

/-- The three CORS headers the handlers set explicitly via `res.setHeader`. -/
def corsHeaders : List (String × String) :=
  [("Access-Control-Allow-Origin", "*"),
   ("Access-Control-Allow-Methods", "POST, OPTIONS"),
   ("Access-Control-Allow-Headers", "Content-Type")]

/-- The permissive-origin header attached to every `server.js` response by
the `app.use(cors())` middleware. -/
def expressCorsHeaders : List (String × String) :=
  [("Access-Control-Allow-Origin", "*")]

/-- The `args` array passed to `puppeteer.launch` in `server.js` (and,
identically, to `chromium.launch` in the serverless navigate handler). -/
def chromeLaunchArgs : List String :=
  ["--no-sandbox", "--disable-setuid-sandbox", "--disable-dev-shm-usage",
   "--disable-accelerated-2d-canvas", "--disable-gpu", "--window-size=1920,1080"]

/-- The launch options of `server.js` create-session. -/
def puppeteerLaunchOpts : LaunchOptions :=
  { executablePath := none, headless := true, args := chromeLaunchArgs }

/-- The launch options of the serverless navigate handler. -/
def serverlessNavLaunchOpts : LaunchOptions :=
  { executablePath := none, headless := true, args := chromeLaunchArgs }

/-- The goto options of `server.js` navigate:
`{waitUntil: 'networkidle2', timeout: 30000}`. -/
def puppeteerGotoOpts : GotoOptions :=
  { waitUntil := "networkidle2", timeout := 30000 }

/-- The goto options of the serverless navigate handler:
`{waitUntil: 'networkidle', timeout: 30000}`. -/
def serverlessGotoOpts : GotoOptions :=
  { waitUntil := "networkidle", timeout := 30000 }

/-- The catch-branch response of `server.js` create-session:
`AbortError` is mapped to 504, anything else to 500 with
`error.message || 'Internal server error'`. -/
def createSessionPuppeteerError (e : JsError) : Response :=
  if e.name = "AbortError" then
    { status := 504, headers := corsHeaders, body := Body.errorMsg "Browser launch timed out." }
  else
    { status := 500, headers := corsHeaders,
      body := Body.errorMsg (msgOr e.message "Internal server error") }

/-- Handler of `POST /api/create-session` in `server.js` (Puppeteer).
`now` models `Date.now()` and `rand` models
`Math.random().toString(36).substring(2, 9)`.  On any error after launch
the catch block closes the launched browser. -/
def createSessionPuppeteer (env : BrowserEnv) (method : String) (now : Nat)
    (rand : String) (sessions : SessionMap) : HOut :=
  if method = "OPTIONS" then
    ⟨{ status := 200, headers := corsHeaders, body := Body.empty }, sessions, []⟩
  else if method ≠ "POST" then
    ⟨{ status := 405, headers := corsHeaders, body := Body.errorMsg "Method not allowed" },
      sessions, []⟩
  else
    match env.launch puppeteerLaunchOpts with
    | Except.error e =>
        ⟨createSessionPuppeteerError e, sessions, [BrowserOp.launch puppeteerLaunchOpts]⟩
    | Except.ok browser =>
      match env.newPage browser with
      | Except.error e =>
          ⟨createSessionPuppeteerError e, sessions,
            [BrowserOp.launch puppeteerLaunchOpts, BrowserOp.newPage browser,
             BrowserOp.close browser]⟩
      | Except.ok page =>
        match env.setViewport page 1920 1080 with
        | Except.error e =>
            ⟨createSessionPuppeteerError e, sessions,
              [BrowserOp.launch puppeteerLaunchOpts, BrowserOp.newPage browser,
               BrowserOp.setViewport page 1920 1080, BrowserOp.close browser]⟩
        | Except.ok _ =>
          let sessionId := "session-" ++ toString now ++ "-" ++ rand
          ⟨{ status := 200, headers := corsHeaders,
             body := Body.envelope sessionId
               ("/browser-view-placeholder.html?session_id=" ++ sessionId) 1920 1080 true },
            mapSet sessions sessionId ⟨browser, page⟩,
            [BrowserOp.launch puppeteerLaunchOpts, BrowserOp.newPage browser,
             BrowserOp.setViewport page 1920 1080]⟩

/-- Handler of `POST /api/navigate` in `server.js` (Puppeteer).  Missing
fields give 400, an unknown session 404; the catch block maps every thrown
error to 500. -/
def navigatePuppeteer (env : BrowserEnv) (sessionId url : Option String)
    (sessions : SessionMap) : HOut :=
  if !(present sessionId) || !(present url) then
    ⟨{ status := 400, headers := expressCorsHeaders,
       body := Body.errorMsg "Session ID and URL are required." }, sessions, []⟩
  else
    let sid := sessionId.getD ""
    let u := url.getD ""
    match mapGet sessions sid with
    | none =>
        ⟨{ status := 404, headers := expressCorsHeaders,
           body := Body.errorMsg "Session not found or invalid. Please create a new session." },
          sessions, []⟩
    | some rec =>
        match env.goto rec.page u puppeteerGotoOpts with
        | Except.ok _ =>
            ⟨{ status := 200, headers := expressCorsHeaders,
               body := Body.successMsg ("Navigated to " ++ u) },
              sessions, [BrowserOp.goto rec.page u puppeteerGotoOpts]⟩
        | Except.error e =>
            ⟨{ status := 500, headers := expressCorsHeaders,
               body := Body.errorMsg (msgOr e.message "Failed to navigate.") },
              sessions, [BrowserOp.goto rec.page u puppeteerGotoOpts]⟩

/-- Handler of `GET /api/screenshot/:sessionId` in `server.js` (Puppeteer).
The session id is a URL path parameter, hence always a string.  Unknown
session gives 404; the catch block maps every thrown error to 500. -/
def screenshotPuppeteer (env : BrowserEnv) (sessionId : String)
    (sessions : SessionMap) : HOut :=
  match mapGet sessions sessionId with
  | none =>
      ⟨{ status := 404, headers := expressCorsHeaders,
         body := Body.errorMsg "Session not found or invalid. Please create a new session." },
        sessions, []⟩
  | some rec =>
      match env.screenshot rec.page with
      | Except.ok img =>
          ⟨{ status := 200, headers := expressCorsHeaders,
             body := Body.shot img "image/png" },
            sessions, [BrowserOp.screenshot rec.page]⟩
      | Except.error e =>
          ⟨{ status := 500, headers := expressCorsHeaders,
             body := Body.errorMsg (msgOr e.message "Failed to take screenshot.") },
            sessions, [BrowserOp.screenshot rec.page]⟩

/-- Handler of `POST /api/close-session` in `server.js` (Puppeteer).  The
map entry is deleted only after `browser.close()` returns; if close throws
the handler answers 500 and the map is untouched. -/
def closeSessionPuppeteer (env : BrowserEnv) (sessionId : Option String)
    (sessions : SessionMap) : HOut :=
  if !(present sessionId) then
    ⟨{ status := 400, headers := expressCorsHeaders,
       body := Body.errorMsg "Session ID is required." }, sessions, []⟩
  else
    let sid := sessionId.getD ""
    match mapGet sessions sid with
    | none =>
        ⟨{ status := 404, headers := expressCorsHeaders,
           body := Body.errorMsg "Session not found." }, sessions, []⟩
    | some rec =>
        match env.closeBrowser rec.browser with
        | Except.ok _ =>
            ⟨{ status := 200, headers := expressCorsHeaders,
               body := Body.successMsg ("Session " ++ sid ++ " closed.") },
              mapDelete sessions sid, [BrowserOp.close rec.browser]⟩
        | Except.error e =>
            ⟨{ status := 500, headers := expressCorsHeaders,
               body := Body.errorMsg (msgOr e.message "Failed to close session.") },
              sessions, [BrowserOp.close rec.browser]⟩

/-- Handler of `/api/create-session` in `src/unnamed/part_000` (the
simulation variant; no browser, no session map).  `aborted` models whether
the 5-second AbortController fired during the simulated delay; when it did,
the handler throws "Simulated request timed out", which the catch block
maps to 504. -/
def createSessionSim (method : String) (aborted : Bool) (now : Nat)
    (rand : String) : Response :=
  if method = "OPTIONS" then
    { status := 200, headers := corsHeaders, body := Body.empty }
  else if method ≠ "POST" then
    { status := 405, headers := corsHeaders, body := Body.errorMsg "Method not allowed" }
  else if aborted then
    { status := 504, headers := corsHeaders,
      body := Body.errorMsg "Simulated session creation timed out." }
  else
    let sessionId := "session-" ++ toString now ++ "-" ++ rand
    { status := 200, headers := corsHeaders,
      body := Body.envelope sessionId
        ("/browser-view.html?session_id=" ++ sessionId) 1920 1080 false }

/-- The catch-branch response of the serverless create-session handler:
an error whose message mentions `libnss3.so` gets a dedicated 500 body
(and, per the source, skips closing the browser); any other error gets 500
with `error.message || 'Internal server error during session creation.'`. -/
def createSessionServerlessError (e : JsError) : Response :=
  if strContains e.message "libnss3.so" then
    { status := 500, headers := corsHeaders,
      body := Body.errorDetails
        "Failed to launch browser: Missing system dependency (libnss3.so). This often requires specific Vercel build configurations or a remote browser service."
        e.message }
  else
    { status := 500, headers := corsHeaders,
      body := Body.errorMsg (msgOr e.message "Internal server error during session creation.") }

/-- The launch options built by `launchBrowser()` in
`api/create-session.js`: the executable path and args come from
`@sparticuz/chromium`. -/
def serverlessCreateLaunchOpts (env : BrowserEnv) : LaunchOptions :=
  { executablePath := some env.executablePath, headless := true, args := env.chromiumArgs }

/-- Handler of `api/create-session.js` (serverless, Playwright).  On a
non-libnss3 error after launch, the catch block closes the browser. -/
def createSessionServerless (env : BrowserEnv) (method : String) (now : Nat)
    (rand : String) (sessions : SessionMap) : HOut :=
  if method = "OPTIONS" then
    ⟨{ status := 200, headers := corsHeaders, body := Body.empty }, sessions, []⟩
  else if method ≠ "POST" then
    ⟨{ status := 405, headers := corsHeaders, body := Body.errorMsg "Method not allowed" },
      sessions, []⟩
  else
    match env.launch (serverlessCreateLaunchOpts env) with
    | Except.error e =>
        ⟨createSessionServerlessError e, sessions,
          [BrowserOp.launch (serverlessCreateLaunchOpts env)]⟩
    | Except.ok browser =>
      match env.newPage browser with
      | Except.error e =>
          ⟨createSessionServerlessError e, sessions,
            [BrowserOp.launch (serverlessCreateLaunchOpts env), BrowserOp.newPage browser] ++
              (if strContains e.message "libnss3.so" then [] else [BrowserOp.close browser])⟩
      | Except.ok page =>
        match env.setViewport page 1920 1080 with
        | Except.error e =>
            ⟨createSessionServerlessError e, sessions,
              [BrowserOp.launch (serverlessCreateLaunchOpts env), BrowserOp.newPage browser,
               BrowserOp.setViewport page 1920 1080] ++
                (if strContains e.message "libnss3.so" then [] else [BrowserOp.close browser])⟩
        | Except.ok _ =>
          let sessionId := "session-" ++ toString now ++ "-" ++ rand
          ⟨{ status := 200, headers := corsHeaders,
             body := Body.envelope sessionId
               ("/browser-view-placeholder.html?session_id=" ++ sessionId) 1920 1080 true },
            mapSet sessions sessionId ⟨browser, page⟩,
            [BrowserOp.launch (serverlessCreateLaunchOpts env), BrowserOp.newPage browser,
             BrowserOp.setViewport page 1920 1080]⟩

/-- The catch-branch response of the serverless navigate handler: a
`TimeoutError` is mapped to 504, anything else to 500. -/
def navigateServerlessError (u : String) (e : JsError) : Response :=
  if e.name = "TimeoutError" then
    { status := 504, headers := corsHeaders,
      body := Body.errorMsg ("Navigation to " ++ u ++ " timed out.") }
  else
    { status := 500, headers := corsHeaders,
      body := Body.errorMsg (msgOr e.message "Failed to navigate the browser.") }

/-- Handler of `api/navigate.js` (serverless, Playwright).  On a session-map
miss it launches a brand-new browser for this request.
`browserWasNewlyLaunched` is set only after launch, newPage and
setViewportSize have all succeeded, and the finally block closes the
browser only when that flag is set; so an error thrown by newPage or
setViewportSize leaves the launched browser unclosed. -/
def navigateServerless (env : BrowserEnv) (method : String)
    (sessionId url : Option String) (sessions : SessionMap) : HOut :=
  if method = "OPTIONS" then
    ⟨{ status := 200, headers := corsHeaders, body := Body.empty }, sessions, []⟩
  else if method ≠ "POST" then
    ⟨{ status := 405, headers := corsHeaders, body := Body.errorMsg "Method not allowed" },
      sessions, []⟩
  else if !(present sessionId) || !(present url) then
    ⟨{ status := 400, headers := corsHeaders,
       body := Body.errorMsg "Session ID and URL are required in the request body." },
      sessions, []⟩
  else
    let sid := sessionId.getD ""
    let u := url.getD ""
    match mapGet sessions sid with
    | some rec =>
        match env.goto rec.page u serverlessGotoOpts with
        | Except.ok _ =>
            ⟨{ status := 200, headers := corsHeaders,
               body := Body.successMsg ("Navigated to " ++ u) },
              sessions, [BrowserOp.goto rec.page u serverlessGotoOpts]⟩
        | Except.error e =>
            ⟨navigateServerlessError u e, sessions,
              [BrowserOp.goto rec.page u serverlessGotoOpts]⟩
    | none =>
        match env.launch serverlessNavLaunchOpts with
        | Except.error e =>
            ⟨navigateServerlessError u e, sessions,
              [BrowserOp.launch serverlessNavLaunchOpts]⟩
        | Except.ok browser =>
          match env.newPage browser with
          | Except.error e =>
              ⟨navigateServerlessError u e, sessions,
                [BrowserOp.launch serverlessNavLaunchOpts, BrowserOp.newPage browser]⟩
          | Except.ok page =>
            match env.setViewport page 1920 1080 with
            | Except.error e =>
                ⟨navigateServerlessError u e, sessions,
                  [BrowserOp.launch serverlessNavLaunchOpts, BrowserOp.newPage browser,
                   BrowserOp.setViewport page 1920 1080]⟩
            | Except.ok _ =>
              match env.goto page u serverlessGotoOpts with
              | Except.ok _ =>
                  ⟨{ status := 200, headers := corsHeaders,
                     body := Body.successMsg ("Navigated to " ++ u) },
                    sessions,
                    [BrowserOp.launch serverlessNavLaunchOpts, BrowserOp.newPage browser,
                     BrowserOp.setViewport page 1920 1080,
                     BrowserOp.goto page u serverlessGotoOpts, BrowserOp.close browser]⟩
              | Except.error e =>
                  ⟨navigateServerlessError u e, sessions,
                    [BrowserOp.launch serverlessNavLaunchOpts, BrowserOp.newPage browser,
                     BrowserOp.setViewport page 1920 1080,
                     BrowserOp.goto page u serverlessGotoOpts, BrowserOp.close browser]⟩

/-- Handler of `api/close-session.js` (serverless, Playwright).  A
session-map miss is answered 200 ("considered closed"), not 404. -/
def closeSessionServerless (env : BrowserEnv) (method : String)
    (sessionId : Option String) (sessions : SessionMap) : HOut :=
  if method = "OPTIONS" then
    ⟨{ status := 200, headers := corsHeaders, body := Body.empty }, sessions, []⟩
  else if method ≠ "POST" then
    ⟨{ status := 405, headers := corsHeaders, body := Body.errorMsg "Method not allowed" },
      sessions, []⟩
  else if !(present sessionId) then
    ⟨{ status := 400, headers := corsHeaders, body := Body.errorMsg "Session ID is required." },
      sessions, []⟩
  else
    let sid := sessionId.getD ""
    match mapGet sessions sid with
    | none =>
        ⟨{ status := 200, headers := corsHeaders,
           body := Body.successMsg
             ("Session " ++ sid ++ " (possibly remote) considered closed.") },
          sessions, []⟩
    | some rec =>
        match env.closeBrowser rec.browser with
        | Except.ok _ =>
            ⟨{ status := 200, headers := corsHeaders,
               body := Body.successMsg ("Session " ++ sid ++ " closed.") },
              mapDelete sessions sid, [BrowserOp.close rec.browser]⟩
        | Except.error e =>
            ⟨{ status := 500, headers := corsHeaders,
               body := Body.errorMsg (msgOr e.message "Failed to close session.") },
              sessions, [BrowserOp.close rec.browser]⟩

/-! ### Concrete environments, used by witnesses and counterexamples -/

/-- An environment in which every browser operation succeeds. -/
def okEnv : BrowserEnv where
  launch := fun _ => Except.ok ⟨1⟩
  newPage := fun _ => Except.ok ⟨7⟩
  setViewport := fun _ _ _ => Except.ok ()
  goto := fun _ _ _ => Except.ok ()
  screenshot := fun _ => Except.ok "iVBORw0KGgo"
  closeBrowser := fun _ => Except.ok ()
  executablePath := "/opt/bin/chromium"
  chromiumArgs := ["--single-process"]

/-- The session record `okEnv` produces: browser 1, page 7. -/
def rec1 : SessionRec := ⟨⟨1⟩, ⟨7⟩⟩

/-- An environment whose navigations throw a Playwright/Puppeteer
`TimeoutError`. -/
def timeoutEnv : BrowserEnv :=
  { okEnv with goto := fun _ _ _ =>
      Except.error ⟨"TimeoutError", "Navigation timeout of 30000 ms exceeded"⟩ }

/-- An environment in which `browser.newPage()` throws. -/
def newPageFailEnv : BrowserEnv :=
  { okEnv with newPage := fun _ =>
      Except.error ⟨"Error", "Protocol error: Target closed"⟩ }

/-- An environment in which `browser.close()` throws. -/
def closeFailEnv : BrowserEnv :=
  { okEnv with closeBrowser := fun _ =>
      Except.error ⟨"Error", "Connection closed"⟩ }

/-! ### Claims -/

/-- Claim C1, counterexample: the claim quantifies over the close-session
handlers, but in the serverless variant (`api/close-session.js`) an unknown
`sessionId` is answered with HTTP 200 ("considered closed"), not 404. -/
theorem c1_counterexample :
    (closeSessionServerless okEnv "POST" (some "ghost") []).resp.status = 200 ∧
    (closeSessionServerless okEnv "POST" (some "ghost") []).resp.status ≠ 404 := by
  constructor
  · decide
  · decide

/-- Claim C1 (amended): in the Puppeteer variant (`server.js`), every
navigate, screenshot, or close-session request whose sessionId is not a key
of the active-session map is answered with HTTP 404, with no browser
operation performed and the session map unchanged.  (The serverless variant
behaves differently: navigate re-allocates a browser and close-session
answers 200.) -/
theorem c1_puppeteer_unknown_session_404 :
    (∀ (env : BrowserEnv) (sid u : String) (sessions : SessionMap),
      sid ≠ "" → u ≠ "" → mapGet sessions sid = none →
      (navigatePuppeteer env (some sid) (some u) sessions).resp.status = 404 ∧
      (navigatePuppeteer env (some sid) (some u) sessions).ops = [] ∧
      (navigatePuppeteer env (some sid) (some u) sessions).sessions = sessions) ∧
    (∀ (env : BrowserEnv) (sid : String) (sessions : SessionMap),
      mapGet sessions sid = none →
      (screenshotPuppeteer env sid sessions).resp.status = 404 ∧
      (screenshotPuppeteer env sid sessions).ops = [] ∧
      (screenshotPuppeteer env sid sessions).sessions = sessions) ∧
    (∀ (env : BrowserEnv) (sid : String) (sessions : SessionMap),
      sid ≠ "" → mapGet sessions sid = none →
      (closeSessionPuppeteer env (some sid) sessions).resp.status = 404 ∧
      (closeSessionPuppeteer env (some sid) sessions).ops = [] ∧
      (closeSessionPuppeteer env (some sid) sessions).sessions = sessions) := by
  refine ⟨?_, ?_, ?_⟩
  · intro env sid u sessions hsid hu hget
    simp [navigatePuppeteer, present, hsid, hu, hget]
  · intro env sid sessions hget
    simp [screenshotPuppeteer, hget]
  · intro env sid sessions hsid hget
    simp [closeSessionPuppeteer, present, hsid, hget]

/-- Witness for the amended claim C1 at a concrete unknown session id. -/
theorem c1_witness :
    (navigatePuppeteer okEnv (some "s1") (some "http://example.com") []).resp.status = 404 ∧
    (navigatePuppeteer okEnv (some "s1") (some "http://example.com") []).ops = [] ∧
    (navigatePuppeteer okEnv (some "s1") (some "http://example.com") []).sessions = [] :=
  c1_puppeteer_unknown_session_404.1 okEnv "s1" "http://example.com" []
    (by decide) (by decide) rfl

/-- Claim C2: the serverless navigate handler, given both fields but an
unknown sessionId, launches a brand-new browser and page, navigates it to
the url with the network-idle heuristic (`waitUntil: 'networkidle'`), and
answers with the success/failure of that navigation (200, or 504/500 on a
thrown error), never rejecting with 404 or 400. -/
theorem c2_serverless_navigate_reallocates :
    ∀ (env : BrowserEnv) (sid u : String) (sessions : SessionMap)
      (browser : Browser) (page : Page),
      sid ≠ "" → u ≠ "" → mapGet sessions sid = none →
      env.launch serverlessNavLaunchOpts = Except.ok browser →
      env.newPage browser = Except.ok page →
      env.setViewport page 1920 1080 = Except.ok () →
      BrowserOp.launch serverlessNavLaunchOpts ∈
        (navigateServerless env "POST" (some sid) (some u) sessions).ops ∧
      BrowserOp.goto page u serverlessGotoOpts ∈
        (navigateServerless env "POST" (some sid) (some u) sessions).ops ∧
      serverlessGotoOpts.waitUntil = "networkidle" ∧
      (navigateServerless env "POST" (some sid) (some u) sessions).resp.status =
        (match env.goto page u serverlessGotoOpts with
          | Except.ok _ => 200
          | Except.error e => if e.name = "TimeoutError" then 504 else 500) ∧
      (navigateServerless env "POST" (some sid) (some u) sessions).resp.status ≠ 404 ∧
      (navigateServerless env "POST" (some sid) (some u) sessions).resp.status ≠ 400 := by
  intro env sid u sessions browser page hsid hu hget hlaunch hnew hview
  cases hgoto : env.goto page u serverlessGotoOpts with
  | ok v =>
      simp [navigateServerless, present, hsid, hu, hget, hlaunch, hnew, hview, hgoto]
      rfl
  | error e =>
      by_cases hname : e.name = "TimeoutError" <;>
        simp [navigateServerless, navigateServerlessError, present, hsid, hu, hget,
          hlaunch, hnew, hview, hgoto, hname] <;>
        rfl

/-- Witness for claim C2: a fresh map, a successful environment. -/
theorem c2_witness :
    BrowserOp.launch serverlessNavLaunchOpts ∈
      (navigateServerless okEnv "POST" (some "s1") (some "http://a.test") []).ops ∧
    BrowserOp.goto ⟨7⟩ "http://a.test" serverlessGotoOpts ∈
      (navigateServerless okEnv "POST" (some "s1") (some "http://a.test") []).ops ∧
    serverlessGotoOpts.waitUntil = "networkidle" ∧
    (navigateServerless okEnv "POST" (some "s1") (some "http://a.test") []).resp.status =
      (match okEnv.goto ⟨7⟩ "http://a.test" serverlessGotoOpts with
        | Except.ok _ => 200
        | Except.error e => if e.name = "TimeoutError" then 504 else 500) ∧
    (navigateServerless okEnv "POST" (some "s1") (some "http://a.test") []).resp.status ≠ 404 ∧
    (navigateServerless okEnv "POST" (some "s1") (some "http://a.test") []).resp.status ≠ 400 :=
  c2_serverless_navigate_reallocates okEnv "s1" "http://a.test" [] ⟨1⟩ ⟨7⟩
    (by decide) (by decide) rfl rfl rfl rfl

/-- Claim C3, counterexample: in the Puppeteer variant, a navigation that
throws a `TimeoutError` is answered with 500, not 504 — the 504 mapping
exists only in the serverless navigate handler. -/
theorem c3_counterexample :
    (navigatePuppeteer timeoutEnv (some "s1") (some "http://a.test")
        [("s1", rec1)]).resp.status = 500 ∧
    (navigatePuppeteer timeoutEnv (some "s1") (some "http://a.test")
        [("s1", rec1)]).resp.status ≠ 504 := by
  constructor
  · decide
  · decide

/-- Claim C3 (amended): in every handler, after the not-found check, a
thrown error from the attempted operation is mapped to HTTP 500, except in
the serverless navigate handler, where an error named `TimeoutError` is
mapped to 504; the Puppeteer-variant handlers map every thrown error,
timeouts included, to 500. -/
theorem c3_error_mapping :
    (∀ (env : BrowserEnv) (sid u : String) (rec : SessionRec) (sessions : SessionMap)
        (e : JsError),
      sid ≠ "" → u ≠ "" → mapGet sessions sid = some rec →
      env.goto rec.page u puppeteerGotoOpts = Except.error e →
      (navigatePuppeteer env (some sid) (some u) sessions).resp.status = 500) ∧
    (∀ (env : BrowserEnv) (sid : String) (rec : SessionRec) (sessions : SessionMap)
        (e : JsError),
      mapGet sessions sid = some rec →
      env.screenshot rec.page = Except.error e →
      (screenshotPuppeteer env sid sessions).resp.status = 500) ∧
    (∀ (env : BrowserEnv) (sid : String) (rec : SessionRec) (sessions : SessionMap)
        (e : JsError),
      sid ≠ "" → mapGet sessions sid = some rec →
      env.closeBrowser rec.browser = Except.error e →
      (closeSessionPuppeteer env (some sid) sessions).resp.status = 500) ∧
    (∀ (env : BrowserEnv) (sid : String) (rec : SessionRec) (sessions : SessionMap)
        (e : JsError),
      sid ≠ "" → mapGet sessions sid = some rec →
      env.closeBrowser rec.browser = Except.error e →
      (closeSessionServerless env "POST" (some sid) sessions).resp.status = 500) ∧
    (∀ (env : BrowserEnv) (sid u : String) (rec : SessionRec) (sessions : SessionMap)
        (e : JsError),
      sid ≠ "" → u ≠ "" → mapGet sessions sid = some rec →
      env.goto rec.page u serverlessGotoOpts = Except.error e →
      (navigateServerless env "POST" (some sid) (some u) sessions).resp.status =
        (if e.name = "TimeoutError" then 504 else 500)) := by
  refine ⟨?_, ?_, ?_, ?_, ?_⟩
  · intro env sid u rec sessions e hsid hu hget hgoto
    simp [navigatePuppeteer, present, hsid, hu, hget, hgoto]
  · intro env sid rec sessions e hget hshot
    simp [screenshotPuppeteer, hget, hshot]
  · intro env sid rec sessions e hsid hget hclose
    simp [closeSessionPuppeteer, present, hsid, hget, hclose]
  · intro env sid rec sessions e hsid hget hclose
    simp [closeSessionServerless, present, hsid, hget, hclose]
  · intro env sid u rec sessions e hsid hu hget hgoto
    by_cases hname : e.name = "TimeoutError" <;>
      simp [navigateServerless, navigateServerlessError, present, hsid, hu, hget,
        hgoto, hname]

/-- Witness for the amended claim C3: a failed close in the Puppeteer
variant is answered 500. -/
theorem c3_witness :
    (closeSessionPuppeteer closeFailEnv (some "s1") [("s1", rec1)]).resp.status = 500 :=
  c3_error_mapping.2.2.1 closeFailEnv "s1" rec1 [("s1", rec1)]
    ⟨"Error", "Connection closed"⟩ (by decide) rfl rfl

/-- Claim C4: in all three create-session variants, a successful creation
answers 200 with the envelope carrying the id, the live-view url and the
browser info, and the id is the string "session-" followed by the timestamp
(`Date.now()`), a dash, and the random suffix. -/
theorem c4_create_success_envelope :
    (∀ (env : BrowserEnv) (now : Nat) (rand : String) (sessions : SessionMap)
        (browser : Browser) (page : Page),
      env.launch puppeteerLaunchOpts = Except.ok browser →
      env.newPage browser = Except.ok page →
      env.setViewport page 1920 1080 = Except.ok () →
      (createSessionPuppeteer env "POST" now rand sessions).resp.status = 200 ∧
      (createSessionPuppeteer env "POST" now rand sessions).resp.body =
        Body.envelope ("session-" ++ toString now ++ "-" ++ rand)
          ("/browser-view-placeholder.html?session_id=" ++
            ("session-" ++ toString now ++ "-" ++ rand)) 1920 1080 true) ∧
    (∀ (env : BrowserEnv) (now : Nat) (rand : String) (sessions : SessionMap)
        (browser : Browser) (page : Page),
      env.launch (serverlessCreateLaunchOpts env) = Except.ok browser →
      env.newPage browser = Except.ok page →
      env.setViewport page 1920 1080 = Except.ok () →
      (createSessionServerless env "POST" now rand sessions).resp.status = 200 ∧
      (createSessionServerless env "POST" now rand sessions).resp.body =
        Body.envelope ("session-" ++ toString now ++ "-" ++ rand)
          ("/browser-view-placeholder.html?session_id=" ++
            ("session-" ++ toString now ++ "-" ++ rand)) 1920 1080 true) ∧
    (∀ (now : Nat) (rand : String),
      (createSessionSim "POST" false now rand).status = 200 ∧
      (createSessionSim "POST" false now rand).body =
        Body.envelope ("session-" ++ toString now ++ "-" ++ rand)
          ("/browser-view.html?session_id=" ++
            ("session-" ++ toString now ++ "-" ++ rand)) 1920 1080 false) := by
  refine ⟨?_, ?_, ?_⟩
  · intro env now rand sessions browser page hlaunch hnew hview
    simp [createSessionPuppeteer, hlaunch, hnew, hview]
  · intro env now rand sessions browser page hlaunch hnew hview
    simp [createSessionServerless, hlaunch, hnew, hview]
  · intro now rand
    simp [createSessionSim]

/-- Witness for claim C4 with the all-success environment. -/
theorem c4_witness :
    (createSessionPuppeteer okEnv "POST" 1700000000000 "abc1234" []).resp.status = 200 ∧
    (createSessionPuppeteer okEnv "POST" 1700000000000 "abc1234" []).resp.body =
      Body.envelope ("session-" ++ toString 1700000000000 ++ "-" ++ "abc1234")
        ("/browser-view-placeholder.html?session_id=" ++
          ("session-" ++ toString 1700000000000 ++ "-" ++ "abc1234")) 1920 1080 true :=
  c4_create_success_envelope.1 okEnv 1700000000000 "abc1234" [] ⟨1⟩ ⟨7⟩ rfl rfl rfl

/-- Claim C5: a navigate or close-session request missing a required body
field is answered 400, with no session lookup (the response does not depend
on the session map), no browser operation, and the map unchanged — in the
Puppeteer variant and in the serverless variant alike. -/
theorem c5_missing_fields_400 :
    (∀ (env : BrowserEnv) (sessionId url : Option String) (sessions s2 : SessionMap),
      (present sessionId && present url) = false →
      (navigatePuppeteer env sessionId url sessions).resp.status = 400 ∧
      (navigatePuppeteer env sessionId url sessions).ops = [] ∧
      (navigatePuppeteer env sessionId url sessions).sessions = sessions ∧
      (navigatePuppeteer env sessionId url sessions).resp =
        (navigatePuppeteer env sessionId url s2).resp) ∧
    (∀ (env : BrowserEnv) (sessionId : Option String) (sessions s2 : SessionMap),
      present sessionId = false →
      (closeSessionPuppeteer env sessionId sessions).resp.status = 400 ∧
      (closeSessionPuppeteer env sessionId sessions).ops = [] ∧
      (closeSessionPuppeteer env sessionId sessions).sessions = sessions ∧
      (closeSessionPuppeteer env sessionId sessions).resp =
        (closeSessionPuppeteer env sessionId s2).resp) ∧
    (∀ (env : BrowserEnv) (sessionId url : Option String) (sessions s2 : SessionMap),
      (present sessionId && present url) = false →
      (navigateServerless env "POST" sessionId url sessions).resp.status = 400 ∧
      (navigateServerless env "POST" sessionId url sessions).ops = [] ∧
      (navigateServerless env "POST" sessionId url sessions).sessions = sessions ∧
      (navigateServerless env "POST" sessionId url sessions).resp =
        (navigateServerless env "POST" sessionId url s2).resp) ∧
    (∀ (env : BrowserEnv) (sessionId : Option String) (sessions s2 : SessionMap),
      present sessionId = false →
      (closeSessionServerless env "POST" sessionId sessions).resp.status = 400 ∧
      (closeSessionServerless env "POST" sessionId sessions).ops = [] ∧
      (closeSessionServerless env "POST" sessionId sessions).sessions = sessions ∧
      (closeSessionServerless env "POST" sessionId sessions).resp =
        (closeSessionServerless env "POST" sessionId s2).resp) := by
  refine ⟨?_, ?_, ?_, ?_⟩
  · intro env sessionId url sessions s2 h
    rcases Bool.and_eq_false_iff.mp h with h1 | h1 <;>
      simp [navigatePuppeteer, h1]
  · intro env sessionId sessions s2 h
    simp [closeSessionPuppeteer, h]
  · intro env sessionId url sessions s2 h
    rcases Bool.and_eq_false_iff.mp h with h1 | h1 <;>
      simp [navigateServerless, h1]
  · intro env sessionId sessions s2 h
    simp [closeSessionServerless, h]

/-- Witness for claim C5: navigate with a missing url. -/
theorem c5_witness :
    (navigatePuppeteer okEnv (some "s1") none []).resp.status = 400 ∧
    (navigatePuppeteer okEnv (some "s1") none []).ops = [] ∧
    (navigatePuppeteer okEnv (some "s1") none []).sessions = [] ∧
    (navigatePuppeteer okEnv (some "s1") none []).resp =
      (navigatePuppeteer okEnv (some "s1") none [("s1", rec1)]).resp :=
  c5_missing_fields_400.1 okEnv (some "s1") none [] [("s1", rec1)] (by decide)

/-- Claim C6, counterexample: when `browser.newPage()` throws after the
launch, `browserWasNewlyLaunched` is still false, so the finally block does
not close the brand-new browser — the handler answers 500 with the launched
browser left unclosed. -/
theorem c6_counterexample :
    (navigateServerless newPageFailEnv "POST" (some "s1") (some "http://a.test") []).ops =
      [BrowserOp.launch serverlessNavLaunchOpts, BrowserOp.newPage ⟨1⟩] ∧
    BrowserOp.launch serverlessNavLaunchOpts ∈
      (navigateServerless newPageFailEnv "POST" (some "s1") (some "http://a.test") []).ops ∧
    newPageFailEnv.launch serverlessNavLaunchOpts = Except.ok ⟨1⟩ ∧
    BrowserOp.close ⟨1⟩ ∉
      (navigateServerless newPageFailEnv "POST" (some "s1") (some "http://a.test") []).ops ∧
    (navigateServerless newPageFailEnv "POST" (some "s1") (some "http://a.test") []).resp.status
      = 500 := by
  refine ⟨by decide, by decide, rfl, by decide, by decide⟩

/-- Claim C6 (amended): in the serverless navigate handler, on a session-map
miss the brand-new browser launched for the request is closed before the
handler completes, on both the navigation-success and navigation-error
paths, provided page creation and viewport setup succeed; if `newPage` or
`setViewportSize` throws after the launch, the browser is not closed. -/
theorem c6_serverless_navigate_discards_browser :
    ∀ (env : BrowserEnv) (sid u : String) (sessions : SessionMap)
      (browser : Browser) (page : Page),
      sid ≠ "" → u ≠ "" → mapGet sessions sid = none →
      env.launch serverlessNavLaunchOpts = Except.ok browser →
      env.newPage browser = Except.ok page →
      env.setViewport page 1920 1080 = Except.ok () →
      BrowserOp.close browser ∈
        (navigateServerless env "POST" (some sid) (some u) sessions).ops := by
  intro env sid u sessions browser page hsid hu hget hlaunch hnew hview
  cases hgoto : env.goto page u serverlessGotoOpts with
  | ok v =>
      simp [navigateServerless, present, hsid, hu, hget, hlaunch, hnew, hview, hgoto]
  | error e =>
      simp [navigateServerless, present, hsid, hu, hget, hlaunch, hnew, hview, hgoto]

/-- Witness for the amended claim C6: on the error path (a navigation
timeout) the newly launched browser is still closed. -/
theorem c6_witness :
    BrowserOp.close ⟨1⟩ ∈
      (navigateServerless timeoutEnv "POST" (some "s1") (some "http://a.test") []).ops :=
  c6_serverless_navigate_discards_browser timeoutEnv "s1" "http://a.test" [] ⟨1⟩ ⟨7⟩
    (by decide) (by decide) rfl rfl rfl rfl

/-- Every response of the `server.js` navigate handler carries the
middleware CORS header set. -/
theorem navigatePuppeteer_headers (env : BrowserEnv) (sessionId url : Option String)
    (sessions : SessionMap) :
    (navigatePuppeteer env sessionId url sessions).resp.headers = expressCorsHeaders := by
  unfold navigatePuppeteer
  repeat' first
    | rfl
    | split
    | (dsimp only; split)

/-- Every response of the `server.js` screenshot handler carries the
middleware CORS header set. -/
theorem screenshotPuppeteer_headers (env : BrowserEnv) (sid : String)
    (sessions : SessionMap) :
    (screenshotPuppeteer env sid sessions).resp.headers = expressCorsHeaders := by
  unfold screenshotPuppeteer
  repeat' first
    | rfl
    | split
    | (dsimp only; split)

/-- Every response of the `server.js` close-session handler carries the
middleware CORS header set. -/
theorem closeSessionPuppeteer_headers (env : BrowserEnv) (sessionId : Option String)
    (sessions : SessionMap) :
    (closeSessionPuppeteer env sessionId sessions).resp.headers = expressCorsHeaders := by
  unfold closeSessionPuppeteer
  repeat' first
    | rfl
    | split
    | (dsimp only; split)

/-- Every response of the `server.js` create-session handler carries the
three explicitly set CORS headers. -/
theorem createSessionPuppeteer_headers (env : BrowserEnv) (method : String) (now : Nat)
    (rand : String) (sessions : SessionMap) :
    (createSessionPuppeteer env method now rand sessions).resp.headers = corsHeaders := by
  unfold createSessionPuppeteer createSessionPuppeteerError
  repeat' first
    | rfl
    | split
    | (dsimp only; split)

/-- Every response of the serverless create-session handler carries the
three explicitly set CORS headers. -/
theorem createSessionServerless_headers (env : BrowserEnv) (method : String) (now : Nat)
    (rand : String) (sessions : SessionMap) :
    (createSessionServerless env method now rand sessions).resp.headers = corsHeaders := by
  unfold createSessionServerless createSessionServerlessError
  repeat' first
    | rfl
    | split
    | (dsimp only; split)

/-- Every response of the serverless navigate handler carries the three
explicitly set CORS headers. -/
theorem navigateServerless_headers (env : BrowserEnv) (method : String)
    (sessionId url : Option String) (sessions : SessionMap) :
    (navigateServerless env method sessionId url sessions).resp.headers = corsHeaders := by
  unfold navigateServerless navigateServerlessError
  repeat' first
    | rfl
    | split
    | (dsimp only; split)

/-- Every response of the serverless close-session handler carries the
three explicitly set CORS headers. -/
theorem closeSessionServerless_headers (env : BrowserEnv) (method : String)
    (sessionId : Option String) (sessions : SessionMap) :
    (closeSessionServerless env method sessionId sessions).resp.headers = corsHeaders := by
  unfold closeSessionServerless
  repeat' first
    | rfl
    | split
    | (dsimp only; split)

/-- Every response of the simulated create-session handler carries the
three explicitly set CORS headers. -/
theorem createSessionSim_headers (method : String) (aborted : Bool) (now : Nat)
    (rand : String) :
    (createSessionSim method aborted now rand).headers = corsHeaders := by
  unfold createSessionSim
  repeat' first
    | rfl
    | split
    | (dsimp only; split)

/-- Claim C7: every handler that performs method dispatch answers an
OPTIONS request with HTTP 200 and the permissive CORS headers, and every
response of every handler carries the permissive
`Access-Control-Allow-Origin: *` header (set by the handler itself in the
serverless variant and the create-session handlers, and by the
`app.use(cors())` middleware for the remaining `server.js` endpoints). -/
theorem c7_options_and_cors :
    (∀ (env : BrowserEnv) (now : Nat) (rand : String) (sessions : SessionMap),
      (createSessionPuppeteer env "OPTIONS" now rand sessions).resp.status = 200 ∧
      (createSessionServerless env "OPTIONS" now rand sessions).resp.status = 200) ∧
    (∀ (env : BrowserEnv) (sessionId url : Option String) (sessions : SessionMap),
      (navigateServerless env "OPTIONS" sessionId url sessions).resp.status = 200 ∧
      (closeSessionServerless env "OPTIONS" sessionId sessions).resp.status = 200) ∧
    (∀ (aborted : Bool) (now : Nat) (rand : String),
      (createSessionSim "OPTIONS" aborted now rand).status = 200) ∧
    (∀ (env : BrowserEnv) (method : String) (now : Nat) (rand : String)
        (sessions : SessionMap),
      (createSessionPuppeteer env method now rand sessions).resp.headers = corsHeaders ∧
      (createSessionServerless env method now rand sessions).resp.headers = corsHeaders) ∧
    (∀ (env : BrowserEnv) (method : String) (sessionId url : Option String)
        (sessions : SessionMap),
      (navigateServerless env method sessionId url sessions).resp.headers = corsHeaders ∧
      (closeSessionServerless env method sessionId sessions).resp.headers = corsHeaders) ∧
    (∀ (method : String) (aborted : Bool) (now : Nat) (rand : String),
      (createSessionSim method aborted now rand).headers = corsHeaders) ∧
    (∀ (env : BrowserEnv) (sessionId url : Option String) (sid : String)
        (sessions : SessionMap),
      ("Access-Control-Allow-Origin", "*") ∈
        (navigatePuppeteer env sessionId url sessions).resp.headers ∧
      ("Access-Control-Allow-Origin", "*") ∈
        (screenshotPuppeteer env sid sessions).resp.headers ∧
      ("Access-Control-Allow-Origin", "*") ∈
        (closeSessionPuppeteer env sessionId sessions).resp.headers) := by
  refine ⟨?_, ?_, ?_, ?_, ?_, ?_, ?_⟩
  · intro env now rand sessions
    exact ⟨rfl, rfl⟩
  · intro env sessionId url sessions
    exact ⟨rfl, rfl⟩
  · intro aborted now rand
    rfl
  · intro env method now rand sessions
    exact ⟨createSessionPuppeteer_headers env method now rand sessions,
      createSessionServerless_headers env method now rand sessions⟩
  · intro env method sessionId url sessions
    exact ⟨navigateServerless_headers env method sessionId url sessions,
      closeSessionServerless_headers env method sessionId sessions⟩
  · intro method aborted now rand
    exact createSessionSim_headers method aborted now rand
  · intro env sessionId url sid sessions
    refine ⟨?_, ?_, ?_⟩
    · rw [navigatePuppeteer_headers]
      simp [expressCorsHeaders]
    · rw [screenshotPuppeteer_headers]
      simp [expressCorsHeaders]
    · rw [closeSessionPuppeteer_headers]
      simp [expressCorsHeaders]

/-- Claim C8: in the Puppeteer variant, the 504 branch of create-session is
dead code.  The 30-second AbortController signal is never passed to
`puppeteer.launch` (the `LaunchOptions` built by the handler have no signal
field), so under the runtime guarantee that an operation throws an
`AbortError` only when it was handed an aborted signal — stated here as the
three hypotheses — create-session never answers 504. -/
theorem c8_create_session_504_unreachable :
    ∀ (env : BrowserEnv) (method : String) (now : Nat) (rand : String)
      (sessions : SessionMap),
      (∀ opts e, env.launch opts = Except.error e → e.name ≠ "AbortError") →
      (∀ b e, env.newPage b = Except.error e → e.name ≠ "AbortError") →
      (∀ p w h e, env.setViewport p w h = Except.error e → e.name ≠ "AbortError") →
      (createSessionPuppeteer env method now rand sessions).resp.status ≠ 504 := by
  intro env method now rand sessions hl hn hv
  unfold createSessionPuppeteer createSessionPuppeteerError
  split
  · simp
  · split
    · simp
    · split
      · next e heq => simp [hl _ _ heq]
      · split
        · next e heq => simp [hn _ _ heq]
        · split
          · next e heq => simp [hv _ _ _ _ heq]
          · simp

/-- Witness for claim C8: a concrete all-success environment (which in
particular never throws an AbortError). -/
theorem c8_witness :
    (createSessionPuppeteer okEnv "POST" 3 "r7" []).resp.status ≠ 504 :=
  c8_create_session_504_unreachable okEnv "POST" 3 "r7" []
    (by intro opts e h; simp [okEnv] at h)
    (by intro b e h; simp [okEnv] at h)
    (by intro p w h1 e h; simp [okEnv] at h)

/-- Claim C9: close-session in the Puppeteer variant is atomic on failure:
when `browser.close()` throws, the session map is unchanged (and the
handler answers 500); the record is deleted only on the success path (and
the handler answers 200). -/
theorem c9_close_session_atomic :
    ∀ (env : BrowserEnv) (sid : String) (rec : SessionRec) (sessions : SessionMap),
      sid ≠ "" → mapGet sessions sid = some rec →
      (∀ e, env.closeBrowser rec.browser = Except.error e →
        (closeSessionPuppeteer env (some sid) sessions).sessions = sessions ∧
        (closeSessionPuppeteer env (some sid) sessions).resp.status = 500) ∧
      (env.closeBrowser rec.browser = Except.ok () →
        (closeSessionPuppeteer env (some sid) sessions).sessions = mapDelete sessions sid ∧
        (closeSessionPuppeteer env (some sid) sessions).resp.status = 200) := by
  intro env sid rec sessions hsid hget
  constructor
  · intro e hclose
    simp [closeSessionPuppeteer, present, hsid, hget, hclose]
  · intro hclose
    simp [closeSessionPuppeteer, present, hsid, hget, hclose]

/-- Witness for claim C9: a failing close leaves the one-entry map intact. -/
theorem c9_witness :
    (closeSessionPuppeteer closeFailEnv (some "s1") [("s1", rec1)]).sessions =
      [("s1", rec1)] ∧
    (closeSessionPuppeteer closeFailEnv (some "s1") [("s1", rec1)]).resp.status = 500 :=
  (c9_close_session_atomic closeFailEnv "s1" rec1 [("s1", rec1)] (by decide) rfl).1
    ⟨"Error", "Connection closed"⟩ rfl

/-- Setting a key that is absent from the map appends exactly one entry. -/
theorem mapSet_of_fresh (m : SessionMap) (k : String) (v : SessionRec)
    (h : mapGet m k = none) : mapSet m k v = m ++ [(k, v)] := by
  induction m with
  | nil => rfl
  | cons p rest ih =>
      obtain ⟨k2, v2⟩ := p
      by_cases hk : k2 = k
      · simp [mapGet, hk] at h
      · simp only [mapGet, if_neg hk] at h
        simp [mapSet, hk, ih h]

/-- Claim C10: in the Puppeteer variant the session map is modified only by
create-session — which at most sets the one generated id, and, when the
generated id is fresh and the launch succeeds, appends exactly that one
entry — and by a successful close-session, which removes exactly the
looked-up entry; navigate and screenshot leave the map unchanged on every
request, success or failure. -/
theorem c10_session_map_effects :
    (∀ (env : BrowserEnv) (sessionId url : Option String) (sessions : SessionMap),
      (navigatePuppeteer env sessionId url sessions).sessions = sessions) ∧
    (∀ (env : BrowserEnv) (sid : String) (sessions : SessionMap),
      (screenshotPuppeteer env sid sessions).sessions = sessions) ∧
    (∀ (env : BrowserEnv) (method : String) (now : Nat) (rand : String)
        (sessions : SessionMap),
      (createSessionPuppeteer env method now rand sessions).sessions = sessions ∨
      ∃ rec, (createSessionPuppeteer env method now rand sessions).sessions =
        mapSet sessions ("session-" ++ toString now ++ "-" ++ rand) rec) ∧
    (∀ (env : BrowserEnv) (now : Nat) (rand : String) (sessions : SessionMap)
        (browser : Browser) (page : Page),
      env.launch puppeteerLaunchOpts = Except.ok browser →
      env.newPage browser = Except.ok page →
      env.setViewport page 1920 1080 = Except.ok () →
      mapGet sessions ("session-" ++ toString now ++ "-" ++ rand) = none →
      (createSessionPuppeteer env "POST" now rand sessions).sessions =
        sessions ++ [("session-" ++ toString now ++ "-" ++ rand, ⟨browser, page⟩)]) ∧
    (∀ (env : BrowserEnv) (sessionId : Option String) (sessions : SessionMap),
      (closeSessionPuppeteer env sessionId sessions).sessions = sessions ∨
      ∃ rec, mapGet sessions (sessionId.getD "") = some rec ∧
        env.closeBrowser rec.browser = Except.ok () ∧
        (closeSessionPuppeteer env sessionId sessions).sessions =
          mapDelete sessions (sessionId.getD "") ∧
        (closeSessionPuppeteer env sessionId sessions).resp.status = 200) := by
  refine ⟨?_, ?_, ?_, ?_, ?_⟩
  · intro env sessionId url sessions
    unfold navigatePuppeteer
    repeat' first
      | rfl
      | split
      | (dsimp only; split)
  · intro env sid sessions
    unfold screenshotPuppeteer
    repeat' first
      | rfl
      | split
      | (dsimp only; split)
  · intro env method now rand sessions
    unfold createSessionPuppeteer
    split
    · left; rfl
    · split
      · left; rfl
      · split
        · left; rfl
        · split
          · left; rfl
          · split
            · left; rfl
            · right; exact ⟨_, rfl⟩
  · intro env now rand sessions browser page hlaunch hnew hview hfresh
    simp [createSessionPuppeteer, hlaunch, hnew, hview]
    exact mapSet_of_fresh sessions _ _ hfresh
  · intro env sessionId sessions
    unfold closeSessionPuppeteer
    split
    · left; rfl
    · dsimp only
      split
      · left; rfl
      · next rec heq =>
          split
          · next u heq2 =>
              right
              exact ⟨rec, heq, heq2, rfl, rfl⟩
          · left; rfl

/-- Witness for claim C10: a fresh id appended to the empty map by a
successful create. -/
theorem c10_witness :
    (createSessionPuppeteer okEnv "POST" 5 "zz123" []).sessions =
      [] ++ [("session-" ++ toString 5 ++ "-" ++ "zz123", ⟨⟨1⟩, ⟨7⟩⟩)] :=
  c10_session_map_effects.2.2.2.1 okEnv 5 "zz123" [] ⟨1⟩ ⟨7⟩ rfl rfl rfl rfl
